import Mathlib

/-!
Verification development for the AMS dashboard data-access layer.

The definitions below are a shallow embedding of the TypeScript source:

* `AmsCache` embeds `src/api/amsCache.ts` (two-tier cache with TTL,
  request deduplication).  The in-memory `Map` and `localStorage` are
  modelled as association lists `List (String × CacheEntry α)`;
  `Date.now()` is passed explicitly as an `Int` parameter `now`.
* `AmsClient` embeds the HTTP client (`fetchWithRetry` with its retry /
  401 / timeout classification).  The sequence of network outcomes is an
  explicit oracle `events : Nat → SimEvent α`, and the side effects the
  claims talk about (attempt count, `onUnauthorized` invocations, sleep
  durations) are collected in a `FetchTrace`.
* `AmsBootstrap` embeds `src/api/amsBootstrap.ts` (referential bootstrap
  lifecycle) as explicit state passing over `BootstrapState`; the
  settlement of the `Promise.all` fan-out is the `completeBootstrap`
  step, which reproduces the source continuation verbatim (in
  particular, with no attempt-generation guard).
* `computeDashboardCounts` embeds the aggregation helper of the
  endpoints module (`amsEndpoints.ts`).
-/

/-! ### Association-list primitives (model of JS `Map` / `localStorage`) -/

/-- Lookup of the value bound to string key `k` (first binding wins, as in
JS `Map.get` / `localStorage.getItem`). -/
def lookupKey {β : Type} (k : String) : List (String × β) → Option β
  | [] => none
  | (k', v) :: rest => if k' = k then some v else lookupKey k rest

/-- Removal of the binding of key `k` (JS `Map.delete` /
`localStorage.removeItem`). -/
def eraseKey {β : Type} (k : String) : List (String × β) → List (String × β)
  | [] => []
  | kv :: rest => if kv.1 = k then eraseKey k rest else kv :: eraseKey k rest

/-- Insertion or overwrite of the binding of key `k` (JS `Map.set` /
`localStorage.setItem`). -/
def setKey {β : Type} (k : String) (v : β) (l : List (String × β)) : List (String × β) :=
  (k, v) :: eraseKey k l

/-- Code-point prefix test, the semantics of JS `String.prototype.startsWith`
(the source's `key.startsWith(...)` calls). -/
def strStartsWith (s p : String) : Bool :=
  p.data.isPrefixOf s.data

namespace AmsCache

/-! ### Cache store (`src/api/amsCache.ts`) -/

/-- `CacheEntry<T>` of `amsCache.ts` (the serialized `StoredCacheEntry<T>`
has exactly the same fields, so one structure models both). -/
structure CacheEntry (α : Type) where
  data : α
  timestamp : Int
  ttl : Int
deriving Repr, DecidableEq

/-- The in-memory cache tier (`memoryCache : Map<string, CacheEntry>`). -/
abbrev Mem (α : Type) := List (String × CacheEntry α)

/-- The durable tier (`localStorage`), keyed by raw storage key. -/
abbrev Store (α : Type) := List (String × CacheEntry α)

/-- `CACHE_TTL.DEFAULT` (5 minutes, in ms). -/
def CACHE_TTL.DEFAULT : Int := 300000

/-- `CACHE_TTL.REFERENTIALS` (24 hours, in ms). -/
def CACHE_TTL.REFERENTIALS : Int := 86400000

/-- `CACHE_TTL.SHORT` (1 minute, in ms). -/
def CACHE_TTL.SHORT : Int := 60000

/-- `CACHE_TTL.NONE` (no cache sentinel). -/
def CACHE_TTL.NONE : Int := 0

/-- The `localStorage` key namespace of the cache (`STORAGE_PREFIX`). -/
def STORAGE_PREFIX : String := "ams_cache_"

/-- `isValid` of `amsCache.ts`: an entry is valid when it exists, its `ttl`
is not the 0 sentinel, and `Date.now() - entry.timestamp < entry.ttl`. -/
def isValid {α : Type} (now : Int) : Option (CacheEntry α) → Bool
  | none => false
  | some e => if e.ttl = 0 then false else decide (now - e.timestamp < e.ttl)

/-- `getFromMemory`: return valid data; delete an expired entry found on the
way (eviction-on-read); return the possibly mutated memory tier. -/
def getFromMemory {α : Type} (now : Int) (mem : Mem α) (key : String) :
    Option α × Mem α :=
  match lookupKey key mem with
  | some e =>
    if isValid now (some e) then (some e.data, mem)
    else (none, eraseKey key mem)
  | none => (none, mem)

/-- `setInMemory`: write `{ data, timestamp: Date.now(), ttl }`. -/
def setInMemory {α : Type} (now : Int) (mem : Mem α) (key : String) (data : α)
    (ttl : Int) : Mem α :=
  setKey key ⟨data, now, ttl⟩ mem

/-- `getFromStorage`: read the namespaced entry, serve it when
`entry.ttl > 0 && Date.now() - entry.timestamp < entry.ttl`, otherwise
remove it and report a miss.  (The `try/catch` of the source only downgrades
storage faults to a miss; entries here are well-typed, so that branch is
unreachable in the model.) -/
def getFromStorage {α : Type} (now : Int) (st : Store α) (key : String) :
    Option α × Store α :=
  match lookupKey ( STORAGE_PREFIX ++ key) st with
  | none => (none, st)
  | some e =>
    if decide (0 < e.ttl) && decide (now - e.timestamp < e.ttl) then (some e.data, st)
    else (none, eraseKey ( STORAGE_PREFIX ++ key) st)

/-- `setInStorage`: serialize `{ data, timestamp: Date.now(), ttl }` under
the namespaced key. -/
def setInStorage {α : Type} (now : Int) (st : Store α) (key : String) (data : α)
    (ttl : Int) : Store α :=
  setKey ( STORAGE_PREFIX ++ key) ⟨data, now, ttl⟩ st

/-- `get` of `amsCache.ts`: memory first; on miss consult `localStorage` and,
on a durable hit, promote the value into memory with `CACHE_TTL.DEFAULT`. -/
def get {α : Type} (now : Int) (mem : Mem α) (st : Store α) (key : String) :
    Option α × Mem α × Store α :=
  match getFromMemory now mem key with
  | (some v, mem') => (some v, mem', st)
  | (none, mem') =>
    match getFromStorage now st key with
    | (some v, st') => (some v, setInMemory now mem' key v CACHE_TTL.DEFAULT, st')
    | (none, st') => (none, mem', st')

/-- `set` of `amsCache.ts`: always write the fast tier; write the durable
tier only when `persistToStorage && ttl > 0`. -/
def set {α : Type} (now : Int) (mem : Mem α) (st : Store α) (key : String)
    (data : α) (ttl : Int) (persistToStorage : Bool) : Mem α × Store α :=
  (setInMemory now mem key data ttl,
   if persistToStorage && decide (0 < ttl) then setInStorage now st key data ttl else st)

/-- `clearAll` of `amsCache.ts`: clear the memory tier, then collect every
`localStorage` key starting with `STORAGE_PREFIX` into `keysToRemove` and
remove each collected key. -/
def clearAll {α : Type} (_mem : Mem α) (st : Store α) : Mem α × Store α :=
  let keysToRemove := (st.map Prod.fst).filter (fun k => strStartsWith k STORAGE_PREFIX)
  (([] : Mem α), keysToRemove.foldl (fun s k => eraseKey k s) st)

/-! ### Request coalescing (`deduplicatedFetch`)

`deduplicatedFetch` is an `async` function with no `await` before it
registers its promise, so under the single-threaded event loop its whole
body runs atomically.  `deduplicatedFetch` below is that synchronous body:
the in-flight table maps the key to an operation identifier, a fresh
operation gets the current value of `fetchCount` as its identifier, and
`fetchCount` counts the invocations of the underlying `fetcher`.  `settle`
is the deferred continuation that runs when the fetcher's promise settles:
the `.then` handler caches a successful value, and the `finally` handler
installed by `setInFlight` removes the in-flight entry.  Exactly one
`finally` handler exists per registered operation because `setInFlight` is
called exactly once per `fetcher` invocation. -/

/-- What one caller of `deduplicatedFetch` observes synchronously: a cached
value, or the identifier of the (new or joined) in-flight operation whose
outcome it will receive. -/
inductive CallerView (α : Type) where
  | cached (v : α)
  | joined (op : Nat)
deriving Repr, DecidableEq

/-- The process-wide mutable state touched by `deduplicatedFetch`. -/
structure DedupState (α : Type) where
  mem : Mem α
  st : Store α
  inFlightRequests : List (String × Nat)
  fetchCount : Nat
deriving Repr, DecidableEq

/-- Synchronous body of `deduplicatedFetch`: check the cache, then the
in-flight table, else invoke the fetcher and register the new operation
(`setInFlight`). -/
def deduplicatedFetch {α : Type} (now : Int) (key : String) (s : DedupState α) :
    DedupState α × CallerView α :=
  match get now s.mem s.st key with
  | (some v, mem', st') =>
    (⟨mem', st', s.inFlightRequests, s.fetchCount⟩, .cached v)
  | (none, mem', st') =>
    match lookupKey key s.inFlightRequests with
    | some op => (⟨mem', st', s.inFlightRequests, s.fetchCount⟩, .joined op)
    | none =>
      (⟨mem', st', setKey key s.fetchCount s.inFlightRequests, s.fetchCount + 1⟩,
       .joined s.fetchCount)

/-- Settlement of the registered operation: on success (`outcome = some
data`) the `.then` handler runs `set(key, data, ttl, persistToStorage)`; on
failure nothing is cached.  Either way the `finally` handler removes the
in-flight entry. -/
def settle {α : Type} (now : Int) (key : String) (ttl : Int) (persist : Bool)
    (outcome : Option α) (s : DedupState α) : DedupState α :=
  let cached :=
    match outcome with
    | some data => set now s.mem s.st key data ttl persist
    | none => (s.mem, s.st)
  ⟨cached.1, cached.2, eraseKey key s.inFlightRequests, s.fetchCount⟩

/-- A sequence of further callers of `deduplicatedFetch` for the same key at
the given instants, before the operation settles. -/
def runCallers {α : Type} (key : String) : List Int → DedupState α →
    DedupState α × List (CallerView α)
  | [], s => (s, [])
  | t :: ts, s =>
    let r := deduplicatedFetch t key s
    let rest := runCallers key ts r.1
    (rest.1, r.2 :: rest.2)

end AmsCache

namespace AmsClient

/-! ### HTTP client (`amsClient.ts`) -/

/-- The `type` discriminant of `AmsApiError`. -/
inductive ErrorType where
  | network
  | timeout
  | http
  | parse
  | unknown
deriving Repr, DecidableEq

/-- `AmsApiError` of `amsClient.ts`. -/
structure AmsApiError where
  type : ErrorType
  status : Option Nat
  statusText : Option String
  message : String
  endpoint : String
  params : Option (List (String × String))
deriving Repr, DecidableEq

/-- `AmsResult<T>`: `{ ok: true; data }` or `{ ok: false; error }`. -/
inductive AmsResult (α : Type) where
  | ok (data : α)
  | err (error : AmsApiError)
deriving Repr, DecidableEq

/-- `AmsClientConfig` (the `onUnauthorized` callback is not part of the
value model; its invocations are counted in the `FetchTrace`). -/
structure AmsClientConfig where
  baseUrl : String
  timeout : Int
  maxRetries : Nat
  retryDelay : Int
deriving Repr, DecidableEq

/-- `createError` of `amsClient.ts`. -/
def createError (type : ErrorType) (message endpoint : String)
    (params : Option (List (String × String))) (status : Option Nat)
    (statusText : Option String) : AmsApiError :=
  ⟨type, status, statusText, message, endpoint, params⟩

/-- What the `fetch` call of one attempt produces, as seen by
`fetchWithRetry`: an HTTP response (whose successful parse is the
pre-computed `parsed`, abstracting `parseResponse`), an abort (timeout), a
`TypeError` mentioning fetch (network failure), or any other exception. -/
inductive SimEvent (α : Type) where
  | response (status : Nat) (statusText : String) (body : String) (parsed : AmsResult α)
  | abortError
  | networkError
  | otherError (msg : String)

/-- Observable side effects of one `fetchWithRetry` call: how many attempts
(`fetch` invocations) were made, how many times `config.onUnauthorized` was
invoked, and the argument of each `sleep` before a retry, in order. -/
structure FetchTrace where
  attempts : Nat
  unauthorizedCalls : Nat
  delays : List Int
deriving Repr, DecidableEq

/-- `fetchWithRetry` of `amsClient.ts`: 401 short-circuits (invoking
`onUnauthorized`); other non-ok statuses retry with linear backoff
`retryDelay * (attempt + 1)` while `status >= 500 && attempt < maxRetries`;
aborts retry with a flat `retryDelay`; network `TypeError`s retry with
linear backoff; anything else is `unknown`.  A 2xx response returns the
parsed body. -/
def fetchWithRetry {α : Type} (config : AmsClientConfig) (events : Nat → SimEvent α)
    (endpoint : String) (params : Option (List (String × String))) (attempt : Nat) :
    FetchTrace × AmsResult α :=
  match events attempt with
  | .response status statusText body parsed =>
    if status = 401 then
      (⟨1, 1, []⟩,
       .err (createError .http "Unauthorized - session expired" endpoint params
         (some 401) (some "Unauthorized")))
    else if ¬ (200 ≤ status ∧ status < 300) then
      if h : 500 ≤ status ∧ attempt < config.maxRetries then
        let rest := fetchWithRetry config events endpoint params (attempt + 1)
        (⟨rest.1.attempts + 1, rest.1.unauthorizedCalls,
          config.retryDelay * (attempt + 1) :: rest.1.delays⟩, rest.2)
      else
        (⟨1, 0, []⟩,
         .err (createError .http ("HTTP " ++ toString status ++ ": " ++ body)
           endpoint params (some status) (some statusText)))
    else
      (⟨1, 0, []⟩, parsed)
  | .abortError =>
    if h : attempt < config.maxRetries then
      let rest := fetchWithRetry config events endpoint params (attempt + 1)
      (⟨rest.1.attempts + 1, rest.1.unauthorizedCalls,
        config.retryDelay :: rest.1.delays⟩, rest.2)
    else
      (⟨1, 0, []⟩,
       .err (createError .timeout
         ("Request timed out after " ++ toString config.timeout ++ "ms")
         endpoint params none none))
  | .networkError =>
    if h : attempt < config.maxRetries then
      let rest := fetchWithRetry config events endpoint params (attempt + 1)
      (⟨rest.1.attempts + 1, rest.1.unauthorizedCalls,
        config.retryDelay * (attempt + 1) :: rest.1.delays⟩, rest.2)
    else
      (⟨1, 0, []⟩,
       .err (createError .network "Network error - check your connection"
         endpoint params none none))
  | .otherError msg =>
    (⟨1, 0, []⟩, .err (createError .unknown msg endpoint params none none))
termination_by config.maxRetries - attempt
decreasing_by
  · omega
  · omega
  · omega

end AmsClient

namespace AmsBootstrap

/-! ### Referential bootstrapper (`src/api/amsBootstrap.ts`) -/

/-- `GenericRef` of `amsEndpoints.ts` (the dynamic extra-fields bag of the
TS interface carries no behaviour and is omitted). -/
structure GenericRef where
  ID : Int
  CODE : String
  LABEL : String
deriving Repr, DecidableEq

/-- `ReferentialStore` of `amsBootstrap.ts`. -/
structure ReferentialStore where
  acTypes : List GenericRef
  acFleet : List GenericRef
  settings : List GenericRef
  atas : List GenericRef
  taskTypes : List GenericRef
  craTypes : List GenericRef
  delays : List GenericRef
  movUrgs : List GenericRef
  specialities : List GenericRef
  pnTypes : List GenericRef
  movTypes : List GenericRef
deriving Repr, DecidableEq

/-- `emptyStore` of `amsBootstrap.ts`. -/
def emptyStore : ReferentialStore :=
  ⟨[], [], [], [], [], [], [], [], [], [], []⟩

/-- The module-level mutable state of `amsBootstrap.ts`:
`referentialStore`, `isBootstrapped`, and `bootstrapPromise` (modelled as
the identifier of the in-flight bootstrap attempt, if any). -/
structure BootstrapState where
  referentialStore : ReferentialStore
  isBootstrapped : Bool
  bootstrapPromise : Option Nat
deriving Repr, DecidableEq

/-- The initial module state (`{ ...emptyStore }`, `false`, `null`). -/
def initialBootstrapState : BootstrapState :=
  ⟨emptyStore, false, none⟩

/-- The settlement of one reference fetch after `.catch(() => [])`: a
rejection contributes an empty list. -/
def catchEmpty (r : Except Unit (List GenericRef)) : List GenericRef :=
  match r with
  | .ok l => l
  | .error _ => []

/-- The settled outcomes of the eleven parallel reference fetches of one
bootstrap attempt, before their `.catch(() => [])` wrappers are applied. -/
structure FetchOutcomes where
  acTypes : Except Unit (List GenericRef)
  acFleet : Except Unit (List GenericRef)
  settings : Except Unit (List GenericRef)
  atas : Except Unit (List GenericRef)
  taskTypes : Except Unit (List GenericRef)
  craTypes : Except Unit (List GenericRef)
  delays : Except Unit (List GenericRef)
  movUrgs : Except Unit (List GenericRef)
  specialities : Except Unit (List GenericRef)
  pnTypes : Except Unit (List GenericRef)
  movTypes : Except Unit (List GenericRef)

/-- Synchronous prefix of `bootstrapReferentials()`: if a bootstrap promise
already exists or the store is already bootstrapped, change nothing;
otherwise register the new attempt (assign `bootstrapPromise`) and fire the
fan-out. -/
def startBootstrap (attemptId : Nat) (s : BootstrapState) : BootstrapState :=
  if s.bootstrapPromise.isSome then s
  else if s.isBootstrapped then s
  else ⟨s.referentialStore, s.isBootstrapped, some attemptId⟩

/-- The continuation of `bootstrapReferentials()` that runs when the
`Promise.all` fan-out of an attempt settles.  Since every branch is wrapped
in `.catch(() => [])`, the join always resolves and the `try` body always
completes: the store is replaced wholesale, `isBootstrapped` is set, and the
`finally` clears `bootstrapPromise`.  The source performs no check that the
settling attempt is still the current one. -/
def completeBootstrap (o : FetchOutcomes) (_s : BootstrapState) : BootstrapState :=
  ⟨⟨catchEmpty o.acTypes, catchEmpty o.acFleet, catchEmpty o.settings,
    catchEmpty o.atas, catchEmpty o.taskTypes, catchEmpty o.craTypes,
    catchEmpty o.delays, catchEmpty o.movUrgs, catchEmpty o.specialities,
    catchEmpty o.pnTypes, catchEmpty o.movTypes⟩,
   true, none⟩

/-- `resetBootstrap()` of `amsBootstrap.ts`. -/
def resetBootstrap (_s : BootstrapState) : BootstrapState :=
  ⟨emptyStore, false, none⟩

/-- `isReferentialsLoaded()`. -/
def isReferentialsLoaded (s : BootstrapState) : Bool :=
  s.isBootstrapped

/-- `getAcTypes()`. -/
def getAcTypes (s : BootstrapState) : List GenericRef :=
  s.referentialStore.acTypes

/-- `getAcFleet()`. -/
def getAcFleet (s : BootstrapState) : List GenericRef :=
  s.referentialStore.acFleet

/-- `getSettings()`. -/
def getSettings (s : BootstrapState) : List GenericRef :=
  s.referentialStore.settings

/-- `getAtas()`. -/
def getAtas (s : BootstrapState) : List GenericRef :=
  s.referentialStore.atas

/-- `getTaskTypes()`. -/
def getTaskTypes (s : BootstrapState) : List GenericRef :=
  s.referentialStore.taskTypes

/-- `getCraTypes()`. -/
def getCraTypes (s : BootstrapState) : List GenericRef :=
  s.referentialStore.craTypes

/-- `getDelays()`. -/
def getDelays (s : BootstrapState) : List GenericRef :=
  s.referentialStore.delays

/-- `getMovUrgs()`. -/
def getMovUrgs (s : BootstrapState) : List GenericRef :=
  s.referentialStore.movUrgs

/-- `getSpecialities()`. -/
def getSpecialities (s : BootstrapState) : List GenericRef :=
  s.referentialStore.specialities

/-- `getPnTypes()`. -/
def getPnTypes (s : BootstrapState) : List GenericRef :=
  s.referentialStore.pnTypes

/-- `getMovTypes()`. -/
def getMovTypes (s : BootstrapState) : List GenericRef :=
  s.referentialStore.movTypes

/-- Names of the eleven reference lists, to quantify one statement over all
of the per-list accessors. -/
inductive RefField where
  | acTypes | acFleet | settings | atas | taskTypes | craTypes
  | delays | movUrgs | specialities | pnTypes | movTypes
deriving Repr, DecidableEq

/-- The synchronous accessor of a given reference list. -/
def getField (f : RefField) (s : BootstrapState) : List GenericRef :=
  match f with
  | .acTypes => getAcTypes s
  | .acFleet => getAcFleet s
  | .settings => getSettings s
  | .atas => getAtas s
  | .taskTypes => getTaskTypes s
  | .craTypes => getCraTypes s
  | .delays => getDelays s
  | .movUrgs => getMovUrgs s
  | .specialities => getSpecialities s
  | .pnTypes => getPnTypes s
  | .movTypes => getMovTypes s

/-- The raw fan-out outcome of a given reference list within an attempt. -/
def outcomeOf (f : RefField) (o : FetchOutcomes) : Except Unit (List GenericRef) :=
  match f with
  | .acTypes => o.acTypes
  | .acFleet => o.acFleet
  | .settings => o.settings
  | .atas => o.atas
  | .taskTypes => o.taskTypes
  | .craTypes => o.craTypes
  | .delays => o.delays
  | .movUrgs => o.movUrgs
  | .specialities => o.specialities
  | .pnTypes => o.pnTypes
  | .movTypes => o.movTypes

/-- A sample referential row. -/
def sampleRef : GenericRef := ⟨1, "A320", "Airbus A320"⟩

/-- A sample fan-out outcome in which the settings fetch rejects and every
other fetch resolves (`acTypes` with one row, the rest empty). -/
def sampleOutcomes : FetchOutcomes :=
  ⟨.ok [sampleRef], .ok [], .error (), .ok [], .ok [], .ok [],
   .ok [], .ok [], .ok [], .ok [], .ok []⟩

end AmsBootstrap

namespace AmsEndpoints

/-! ### Dashboard aggregation (`amsEndpoints.ts`) -/

/-- The numeric fields of the `WpDetail` interface (the dashboard summary
row; the dynamic extra-fields bag is omitted). -/
structure WpDetail where
  WP_ID : Int
  AC_MSN : Int
  WO_Total : Int
  WO_Total_Routine : Int
  WO_Total_RectWorks_Excl : Int
  WO_Total_AddWOrks : Int
  WO_Total_RectWorks_Incl : Int
  WO_Total_Storage : Int
  WO_Total_Routine_Closed : Int
  WO_Total_RectWorks_Excl_Closed : Int
  WO_Total_AddWorks_Closed : Int
  WO_Total_RectWorks_Incl_Closed : Int
  WO_Total_Storage_Closed : Int
  WO_Total_MH_Opened : Int
  WO_Total_Routine_MH_Opened : Int
  WO_Total_RectWorks_Excl_MH_Opened : Int
  WO_Total_AddWorks_MH_Opened : Int
  WO_Total_RectWorks_Incl_MH_Opened : Int
  WO_Total_Storage_MH_Opened : Int
  WO_Total_MH_Closed : Int
  WO_Total_Routine_MH_Closed : Int
  WO_Total_RectWorks_Excl_MH_Closed : Int
  WO_Total_AddWorks_MH_Closed : Int
  WO_Total_RectWorks_Incl_MH_Closed : Int
  WO_Total_Storage_MH_Closed : Int
  PARTS_IN_RFQ : Int
  PARTS_TO_BE_QUOTED : Int
  PARTS_TO_BE_ORDERED : Int
  PARTS_TO_BE_ORDERED_POIN : Int
  PARTS_ETA_PAST : Int
  PARTS_ETA_ON_TIME : Int
  PARTS_NO_ETA : Int
  BUYER_CQ_TO_APPROVE : Int
  TECHOFFICE_CQ_TO_APPROVE : Int
  TOOLS_NOT_RETURNED : Int
  PARTS_TO_BE_ISSUED : Int
  PARTS_TO_BE_ISSUED_POIN : Int
  PARTS_UNDER_CLAIM : Int
  CQ_TO_BE_SENT : Int
  CQ_PENDING_CUST_APPROVAL : Int
  PARTS_REQ_ETA_PAST : Int
  PARTS_REQ_ETA_ON_TIME : Int
  PARTS_REQ_NO_ETA : Int

/-- `DashboardCounts` of `amsEndpoints.ts`. -/
structure DashboardCounts where
  totalWO : Int
  closedWO : Int
  openMH : Int
  closedMH : Int
  partsInRfq : Int
  partsToBeOrdered : Int
  partsToBeIssued : Int
  partsEtaPast : Int
  cqToApprove : Int
  toolsNotReturned : Int

/-- `computeDashboardCounts` of `amsEndpoints.ts`. -/
def computeDashboardCounts (wpDetail : WpDetail) : DashboardCounts :=
  let closedWO :=
    wpDetail.WO_Total_Routine_Closed +
    wpDetail.WO_Total_RectWorks_Excl_Closed +
    wpDetail.WO_Total_AddWorks_Closed +
    wpDetail.WO_Total_RectWorks_Incl_Closed +
    wpDetail.WO_Total_Storage_Closed
  ⟨wpDetail.WO_Total,
   closedWO,
   wpDetail.WO_Total_MH_Opened,
   wpDetail.WO_Total_MH_Closed,
   wpDetail.PARTS_IN_RFQ,
   wpDetail.PARTS_TO_BE_ORDERED + wpDetail.PARTS_TO_BE_ORDERED_POIN,
   wpDetail.PARTS_TO_BE_ISSUED + wpDetail.PARTS_TO_BE_ISSUED_POIN,
   wpDetail.PARTS_ETA_PAST + wpDetail.PARTS_REQ_ETA_PAST,
   wpDetail.BUYER_CQ_TO_APPROVE + wpDetail.TECHOFFICE_CQ_TO_APPROVE,
   wpDetail.TOOLS_NOT_RETURNED⟩

end AmsEndpoints

/-- The `localStorage` key of the session token (`utils/api.ts`,
`saveToken` / `getStoredToken`). -/
def TOKEN_KEY : String := "erpToken"

/-- The `localStorage` key of the session settings (`utils/api.ts`,
`saveApiSettings` / `getApiSettings`). -/
def SETTINGS_KEY : String := "erpApiSettings"

/-! ### Association-list lemmas -/

theorem lookupKey_eraseKey_self {β : Type} (k : String) (l : List (String × β)) :
    lookupKey k (eraseKey k l) = none := by
  induction l with
  | nil => rfl
  | cons kv rest ih =>
    by_cases h : kv.1 = k
    · simpa [eraseKey, h] using ih
    · simpa [eraseKey, lookupKey, h] using ih

theorem lookupKey_eraseKey_ne {β : Type} {k k' : String} (h : k' ≠ k)
    (l : List (String × β)) : lookupKey k (eraseKey k' l) = lookupKey k l := by
  induction l with
  | nil => rfl
  | cons kv rest ih =>
    obtain ⟨a, b⟩ := kv
    by_cases hk : a = k'
    · simpa [eraseKey, lookupKey, hk, h] using ih
    · by_cases hk2 : a = k
      · simp [eraseKey, lookupKey, hk, hk2, Ne.symm h]
      · simpa [eraseKey, lookupKey, hk, hk2] using ih

theorem lookupKey_setKey_self {β : Type} (k : String) (v : β) (l : List (String × β)) :
    lookupKey k (setKey k v l) = some v := by
  simp [setKey, lookupKey]

theorem lookupKey_setKey_ne {β : Type} {k k' : String} (h : k' ≠ k) (v : β)
    (l : List (String × β)) : lookupKey k (setKey k' v l) = lookupKey k l := by
  simp only [setKey, lookupKey, if_neg h]
  exact lookupKey_eraseKey_ne h l

theorem lookupKey_eq_none_of_not_mem {β : Type} {k : String} {l : List (String × β)}
    (h : ¬ k ∈ l.map Prod.fst) : lookupKey k l = none := by
  induction l with
  | nil => rfl
  | cons kv rest ih =>
    simp only [List.map_cons, List.mem_cons] at h
    push_neg at h
    have : ¬ kv.1 = k := fun he => h.1 he.symm
    simp [lookupKey, this]
    exact ih h.2

/-! ### Cache-store lemmas -/

namespace AmsCache

theorem getFromMemory_none_lookup {α : Type} (now : Int) (mem : Mem α) (key : String)
    (h : (getFromMemory now mem key).1 = none) :
    lookupKey key (getFromMemory now mem key).2 = none := by
  unfold getFromMemory at *
  cases hl : lookupKey key mem with
  | none => simp [hl]
  | some e =>
    by_cases hv : isValid now (some e)
    · simp [hl, hv] at h
    · simp [hl, hv]
      exact lookupKey_eraseKey_self key mem

theorem getFromStorage_none_lookup {α : Type} (now : Int) (st : Store α) (key : String)
    (h : (getFromStorage now st key).1 = none) :
    lookupKey ( STORAGE_PREFIX ++ key) (getFromStorage now st key).2 = none := by
  unfold getFromStorage at *
  cases hl : lookupKey ( STORAGE_PREFIX ++ key) st with
  | none => simp [hl]
  | some e =>
    by_cases hv : (decide (0 < e.ttl) && decide (now - e.timestamp < e.ttl)) = true
    · simp [hl, hv] at h
    · simp [hl, hv]
      exact lookupKey_eraseKey_self _ st

theorem get_of_lookup_none {α : Type} (now : Int) {mem : Mem α} {st : Store α}
    {key : String} (hm : lookupKey key mem = none)
    (hs : lookupKey ( STORAGE_PREFIX ++ key) st = none) :
    get now mem st key = (none, mem, st) := by
  unfold get getFromMemory getFromStorage
  simp [hm, hs]

theorem get_none_lookup {α : Type} {now : Int} {mem : Mem α} {st : Store α}
    {key : String} (h : (get now mem st key).1 = none) :
    lookupKey key (get now mem st key).2.1 = none
    ∧ lookupKey ( STORAGE_PREFIX ++ key) (get now mem st key).2.2 = none := by
  unfold get at *
  cases hm : getFromMemory now mem key with
  | mk r1 mem' =>
    cases r1 with
    | some v => simp [hm] at h
    | none =>
      cases hs : getFromStorage now st key with
      | mk r2 st' =>
        cases r2 with
        | some v => simp [hm, hs] at h
        | none =>
          simp only [hm, hs]
          constructor
          · have hx := getFromMemory_none_lookup now mem key (by rw [hm])
            rwa [hm] at hx
          · have hx := getFromStorage_none_lookup now st key (by rw [hs])
            rwa [hs] at hx

theorem deduplicatedFetch_joins {α : Type} (t : Int) (key : String) {s : DedupState α}
    {op : Nat} (hm : lookupKey key s.mem = none)
    (hs : lookupKey ( STORAGE_PREFIX ++ key) s.st = none)
    (hf : lookupKey key s.inFlightRequests = some op) :
    deduplicatedFetch t key s = (s, .joined op) := by
  unfold deduplicatedFetch
  rw [get_of_lookup_none t hm hs, hf]

theorem runCallers_all_join {α : Type} (key : String) (ts : List Int)
    (s : DedupState α) (op : Nat) (hm : lookupKey key s.mem = none)
    (hs : lookupKey ( STORAGE_PREFIX ++ key) s.st = none)
    (hf : lookupKey key s.inFlightRequests = some op) :
    runCallers key ts s = (s, ts.map fun _ => .joined op) := by
  induction ts with
  | nil => rfl
  | cons t rest ih =>
    simp only [runCallers, deduplicatedFetch_joins t key hm hs hf, ih, List.map_cons]

end AmsCache

/-! ### Claim theorems -/

/-- C10: for every `WpDetail` record `w`, `computeDashboardCounts w`
returns counts in which `closedWO` is the sum of the five closed-category
counters, `partsToBeOrdered`, `partsToBeIssued`, `partsEtaPast` and
`cqToApprove` are the indicated two-term sums, and `totalWO`, `openMH`,
`closedMH`, `partsInRfq`, `toolsNotReturned` are copied through. -/
theorem computeDashboardCounts_spec (w : AmsEndpoints.WpDetail) :
    (AmsEndpoints.computeDashboardCounts w).closedWO =
        w.WO_Total_Routine_Closed + w.WO_Total_RectWorks_Excl_Closed +
        w.WO_Total_AddWorks_Closed + w.WO_Total_RectWorks_Incl_Closed +
        w.WO_Total_Storage_Closed
    ∧ (AmsEndpoints.computeDashboardCounts w).partsToBeOrdered =
        w.PARTS_TO_BE_ORDERED + w.PARTS_TO_BE_ORDERED_POIN
    ∧ (AmsEndpoints.computeDashboardCounts w).partsToBeIssued =
        w.PARTS_TO_BE_ISSUED + w.PARTS_TO_BE_ISSUED_POIN
    ∧ (AmsEndpoints.computeDashboardCounts w).partsEtaPast =
        w.PARTS_ETA_PAST + w.PARTS_REQ_ETA_PAST
    ∧ (AmsEndpoints.computeDashboardCounts w).cqToApprove =
        w.BUYER_CQ_TO_APPROVE + w.TECHOFFICE_CQ_TO_APPROVE
    ∧ (AmsEndpoints.computeDashboardCounts w).totalWO = w.WO_Total
    ∧ (AmsEndpoints.computeDashboardCounts w).openMH = w.WO_Total_MH_Opened
    ∧ (AmsEndpoints.computeDashboardCounts w).closedMH = w.WO_Total_MH_Closed
    ∧ (AmsEndpoints.computeDashboardCounts w).partsInRfq = w.PARTS_IN_RFQ
    ∧ (AmsEndpoints.computeDashboardCounts w).toolsNotReturned = w.TOOLS_NOT_RETURNED :=
  ⟨rfl, rfl, rfl, rfl, rfl, rfl, rfl, rfl, rfl, rfl⟩

/-- C3: the claim requires that a bootstrap result arriving after
`resetBootstrap()` never repopulates the snapshot or re-sets the loaded
flag.  The source has no attempt-generation guard, so the code violates
this: the theorem evaluates the failing trace — start a bootstrap attempt,
reset while it is in flight, then let the attempt's fan-out settle — and
shows that immediately after the reset the state is clean, yet the
superseded attempt's completion repopulates `referentialStore` and sets
`isBootstrapped`, both observable through the accessors. -/
theorem bootstrap_reset_race_bug :
    AmsBootstrap.isReferentialsLoaded
        (AmsBootstrap.resetBootstrap
          (AmsBootstrap.startBootstrap 0 AmsBootstrap.initialBootstrapState)) = false
    ∧ AmsBootstrap.getAcTypes
        (AmsBootstrap.resetBootstrap
          (AmsBootstrap.startBootstrap 0 AmsBootstrap.initialBootstrapState)) = []
    ∧ AmsBootstrap.isReferentialsLoaded
        (AmsBootstrap.completeBootstrap AmsBootstrap.sampleOutcomes
          (AmsBootstrap.resetBootstrap
            (AmsBootstrap.startBootstrap 0 AmsBootstrap.initialBootstrapState))) = true
    ∧ AmsBootstrap.getAcTypes
        (AmsBootstrap.completeBootstrap AmsBootstrap.sampleOutcomes
          (AmsBootstrap.resetBootstrap
            (AmsBootstrap.startBootstrap 0 AmsBootstrap.initialBootstrapState))) =
        [AmsBootstrap.sampleRef] :=
  ⟨rfl, rfl, rfl, rfl⟩

/-- C8: after the fan-out of a bootstrap run settles, the run completes
(the `completeBootstrap` continuation is a total function: every branch is
wrapped in `.catch(() => [])`, so the join always resolves),
`isReferentialsLoaded()` is true, the accessor of every list whose fetch
failed returns `[]`, and the accessor of every list whose fetch succeeded
returns the fetched data. -/
theorem bootstrap_partial_failure (o : AmsBootstrap.FetchOutcomes)
    (s : AmsBootstrap.BootstrapState) (f : AmsBootstrap.RefField) :
    AmsBootstrap.isReferentialsLoaded (AmsBootstrap.completeBootstrap o s) = true
    ∧ (∀ e, AmsBootstrap.outcomeOf f o = .error e →
        AmsBootstrap.getField f (AmsBootstrap.completeBootstrap o s) = [])
    ∧ (∀ d, AmsBootstrap.outcomeOf f o = .ok d →
        AmsBootstrap.getField f (AmsBootstrap.completeBootstrap o s) = d) := by
  refine ⟨rfl, fun e h => ?_, fun d h => ?_⟩ <;>
    cases f <;>
      simp only [AmsBootstrap.outcomeOf] at h <;>
        simp [AmsBootstrap.getField, AmsBootstrap.getAcTypes, AmsBootstrap.getAcFleet,
          AmsBootstrap.getSettings, AmsBootstrap.getAtas, AmsBootstrap.getTaskTypes,
          AmsBootstrap.getCraTypes, AmsBootstrap.getDelays, AmsBootstrap.getMovUrgs,
          AmsBootstrap.getSpecialities, AmsBootstrap.getPnTypes, AmsBootstrap.getMovTypes,
          AmsBootstrap.completeBootstrap, AmsBootstrap.catchEmpty, h]

/-- C4: whenever the request path receives a 401 response, then for every
configured `maxRetries` no retry is attempted (a single attempt is made),
`onUnauthorized` is invoked exactly once, and the call returns immediately
with an `http` error `Result` carrying status 401. -/
theorem unauthorized_short_circuit {α : Type} (config : AmsClient.AmsClientConfig)
    (events : Nat → AmsClient.SimEvent α) (endpoint : String)
    (params : Option (List (String × String))) (stx body : String)
    (parsed : AmsClient.AmsResult α)
    (h : events 0 = .response 401 stx body parsed) :
    AmsClient.fetchWithRetry config events endpoint params 0 =
      (⟨1, 1, []⟩,
       .err (AmsClient.createError .http "Unauthorized - session expired" endpoint
         params (some 401) (some "Unauthorized"))) := by
  simp [AmsClient.fetchWithRetry, h]

/-- Witness for C4: a concrete 401 response under `maxRetries = 5` makes one
attempt, one unauthorized callback invocation, and yields the 401 `http`
error. -/
theorem unauthorized_short_circuit_witness :
    (fun _ : Nat => AmsClient.SimEvent.response (α := Unit) 401 "Unauthorized" ""
        (.ok ())) 0 =
      AmsClient.SimEvent.response 401 "Unauthorized" "" (.ok ())
    ∧ AmsClient.fetchWithRetry ⟨"/api", 30000, 5, 1000⟩
        (fun _ => AmsClient.SimEvent.response (α := Unit) 401 "Unauthorized" "" (.ok ()))
        "/v1/GenAcType" none 0 =
      (⟨1, 1, []⟩,
       .err (AmsClient.createError .http "Unauthorized - session expired"
         "/v1/GenAcType" none (some 401) (some "Unauthorized"))) :=
  ⟨rfl,
   unauthorized_short_circuit ⟨"/api", 30000, 5, 1000⟩
     (fun _ => AmsClient.SimEvent.response 401 "Unauthorized" "" (.ok ()))
     "/v1/GenAcType" none "Unauthorized" "" (.ok ()) rfl⟩

/-- C5: with `maxRetries = 2` and an operation that always produces a 500
status, exactly 3 attempts are made (initial plus 2 retries), the waits
before the retries are `retryDelay * 1` and `retryDelay * 2` (linear
backoff), and the final `Result` is an `http` error carrying status 500. -/
theorem server_error_retry_bound {α : Type} (config : AmsClient.AmsClientConfig)
    (events : Nat → AmsClient.SimEvent α) (endpoint : String)
    (params : Option (List (String × String))) (stx body : String)
    (parsed : AmsClient.AmsResult α)
    (hmr : config.maxRetries = 2)
    (h : ∀ n, events n = .response 500 stx body parsed) :
    AmsClient.fetchWithRetry config events endpoint params 0 =
      (⟨3, 0, [config.retryDelay, config.retryDelay * 2]⟩,
       .err (AmsClient.createError .http ("HTTP " ++ toString 500 ++ ": " ++ body)
         endpoint params (some 500) (some stx))) := by
  obtain ⟨baseUrl, tmo, mr, rd⟩ := config
  simp only at hmr
  subst hmr
  simp [AmsClient.fetchWithRetry, h]

/-- Witness for C5: a concrete always-500 oracle under `maxRetries = 2` and
`retryDelay = 1000` makes 3 attempts with waits 1000 and 2000 ms and ends in
the 500 `http` error. -/
theorem server_error_retry_bound_witness :
    (⟨"/api", 30000, 2, 1000⟩ : AmsClient.AmsClientConfig).maxRetries = 2
    ∧ AmsClient.fetchWithRetry ⟨"/api", 30000, 2, 1000⟩
        (fun _ => AmsClient.SimEvent.response (α := Unit) 500 "Internal Server Error"
          "boom" (.ok ()))
        "/v1/WpDetail" none 0 =
      (⟨3, 0, [1000, 2000]⟩,
       .err (AmsClient.createError .http ("HTTP " ++ toString 500 ++ ": " ++ "boom")
         "/v1/WpDetail" none (some 500) (some "Internal Server Error"))) :=
  ⟨rfl,
   by
    have := server_error_retry_bound ⟨"/api", 30000, 2, 1000⟩
      (fun _ => AmsClient.SimEvent.response (α := Unit) 500 "Internal Server Error"
        "boom" (.ok ()))
      "/v1/WpDetail" none "Internal Server Error" "boom" (.ok ()) rfl (fun _ => rfl)
    simpa using this⟩

/-- Witness for C8 at a concrete run: in `sampleOutcomes` the settings
fetch rejects and the `acTypes` fetch resolves with one row; after
completion the loaded flag is set, the settings accessor is empty and the
`acTypes` accessor holds the row. -/
theorem bootstrap_partial_failure_witness :
    AmsBootstrap.isReferentialsLoaded
        (AmsBootstrap.completeBootstrap AmsBootstrap.sampleOutcomes
          AmsBootstrap.initialBootstrapState) = true
    ∧ AmsBootstrap.getField .settings
        (AmsBootstrap.completeBootstrap AmsBootstrap.sampleOutcomes
          AmsBootstrap.initialBootstrapState) = []
    ∧ AmsBootstrap.getField .acTypes
        (AmsBootstrap.completeBootstrap AmsBootstrap.sampleOutcomes
          AmsBootstrap.initialBootstrapState) = [AmsBootstrap.sampleRef] :=
  ⟨(bootstrap_partial_failure AmsBootstrap.sampleOutcomes
      AmsBootstrap.initialBootstrapState .settings).1,
   (bootstrap_partial_failure AmsBootstrap.sampleOutcomes
      AmsBootstrap.initialBootstrapState .settings).2.1 () rfl,
   (bootstrap_partial_failure AmsBootstrap.sampleOutcomes
      AmsBootstrap.initialBootstrapState .acTypes).2.2 [AmsBootstrap.sampleRef] rfl⟩

/-- C2 fails on the code: on a durable-tier hit, `get` promotes the value
into the fast tier with `CACHE_TTL.DEFAULT`, not with the durable entry's
original TTL.  Concrete input: the durable tier holds an unexpired entry
with the referential TTL (86400000 ms) and the fast tier is empty; after
`get`, the fast-tier copy carries ttl 300000, which differs from the
original 86400000. -/
theorem cache_promotion_ttl_counterexample :
    (AmsCache.get (α := Int) 5 [] [("ams_cache_k", ⟨7, 0, 86400000⟩)] "k").1 = some 7
    ∧ lookupKey "k"
        (AmsCache.get (α := Int) 5 [] [("ams_cache_k", ⟨7, 0, 86400000⟩)] "k").2.1 =
      some ⟨7, 5, 300000⟩
    ∧ (300000 : Int) ≠ 86400000 := by
  refine ⟨by decide, by decide, by decide⟩

/-- C2 amended: for every key whose fast-tier read misses (entry absent or
expired) and whose durable-tier entry is present and unexpired, `get`
returns the durable entry's data and writes a copy into the fast tier
carrying `CACHE_TTL.DEFAULT` (300000 ms) and the current timestamp — not
the durable entry's original TTL. -/
theorem cache_promotion_uses_default_ttl {α : Type} (now : Int)
    (mem : AmsCache.Mem α) (st : AmsCache.Store α) (key : String)
    (e : AmsCache.CacheEntry α)
    (hmem : (AmsCache.getFromMemory now mem key).1 = none)
    (hst : lookupKey ( AmsCache.STORAGE_PREFIX ++ key) st = some e)
    (httl : 0 < e.ttl) (hfresh : now - e.timestamp < e.ttl) :
    (AmsCache.get now mem st key).1 = some e.data
    ∧ lookupKey key (AmsCache.get now mem st key).2.1 =
        some ⟨e.data, now, AmsCache.CACHE_TTL.DEFAULT⟩ := by
  unfold AmsCache.get
  cases hm : AmsCache.getFromMemory now mem key with
  | mk r mem' =>
    cases r with
    | some v => rw [hm] at hmem; simp at hmem
    | none =>
      unfold AmsCache.getFromStorage
      simp [hst, httl, hfresh, AmsCache.setInMemory, lookupKey_setKey_self]

/-- Witness for the amended C2 at a concrete input: empty fast tier, an
unexpired durable entry with the `SHORT` TTL (60000 ms); the promoted
fast-tier copy carries 300000. -/
theorem cache_promotion_uses_default_ttl_witness :
    (AmsCache.getFromMemory (α := Int) 10 [] "k").1 = none
    ∧ lookupKey ( AmsCache.STORAGE_PREFIX ++ "k")
        [("ams_cache_k", (⟨9, 4, 60000⟩ : AmsCache.CacheEntry Int))] = some ⟨9, 4, 60000⟩
    ∧ (0 : Int) < 60000
    ∧ (10 : Int) - 4 < 60000
    ∧ (AmsCache.get (α := Int) 10 [] [("ams_cache_k", ⟨9, 4, 60000⟩)] "k").1 = some 9
    ∧ lookupKey "k"
        (AmsCache.get (α := Int) 10 [] [("ams_cache_k", ⟨9, 4, 60000⟩)] "k").2.1 =
      some ⟨9, 10, AmsCache.CACHE_TTL.DEFAULT⟩ :=
  ⟨rfl, by decide, by decide, by decide,
   (cache_promotion_uses_default_ttl 10 [] [("ams_cache_k", ⟨9, 4, 60000⟩)] "k"
     ⟨9, 4, 60000⟩ rfl (by decide) (by decide) (by decide)).1,
   (cache_promotion_uses_default_ttl 10 [] [("ams_cache_k", ⟨9, 4, 60000⟩)] "k"
     ⟨9, 4, 60000⟩ rfl (by decide) (by decide) (by decide)).2⟩

/-- C7 fails on the code in one respect: `set(key, v, 0)` never touches the
durable tier, so a pre-existing unexpired durable entry for the same key
survives, and the immediately following `get` serves that stale durable
value instead of returning absent.  Concrete input: the durable tier
already holds `9` (unexpired, ttl 100); after `set("k", 77, 0, true)`, the
read returns `some 9`, not absent. -/
theorem set_ttl_zero_counterexample :
    (AmsCache.get (α := Int) 0
        (AmsCache.set (α := Int) 0 [] [("ams_cache_k", ⟨9, 0, 100⟩)] "k" 77 0 true).1
        (AmsCache.set (α := Int) 0 [] [("ams_cache_k", ⟨9, 0, 100⟩)] "k" 77 0 true).2
        "k").1 = some 9
    ∧ (AmsCache.get (α := Int) 0
        (AmsCache.set (α := Int) 0 [] [("ams_cache_k", ⟨9, 0, 100⟩)] "k" 77 0 true).1
        (AmsCache.set (α := Int) 0 [] [("ams_cache_k", ⟨9, 0, 100⟩)] "k" 77 0 true).2
        "k").1 ≠ none := by
  refine ⟨by decide, by decide⟩

/-- C7 amended: `set(key, v, 0)` writes a ttl-0 entry into the fast tier
only and never into the durable tier, even when `persist` is true; the
ttl-0 entry is always considered expired by the read path, so the
immediately following `get` never serves it — it returns absent whenever
the durable tier holds no independently servable prior entry for the key
(in particular from a clean store). -/
theorem set_ttl_zero_never_served {α : Type} (now now' : Int) (key : String)
    (v : α) (mem : AmsCache.Mem α) (st : AmsCache.Store α) (persist : Bool) :
    (AmsCache.set now mem st key v 0 persist).2 = st
    ∧ lookupKey key (AmsCache.set now mem st key v 0 persist).1 = some ⟨v, now, 0⟩
    ∧ AmsCache.isValid now' (some (⟨v, now, 0⟩ : AmsCache.CacheEntry α)) = false
    ∧ ((AmsCache.getFromStorage now' st key).1 = none →
        (AmsCache.get now'
          (AmsCache.set now mem st key v 0 persist).1
          (AmsCache.set now mem st key v 0 persist).2 key).1 = none) := by
  refine ⟨?_, ?_, rfl, ?_⟩
  · simp [AmsCache.set]
  · simp [AmsCache.set, AmsCache.setInMemory]
    exact lookupKey_setKey_self key _ mem
  · intro h
    have hset2 : (AmsCache.set now mem st key v 0 persist).2 = st := by
      simp [AmsCache.set]
    rw [hset2]
    unfold AmsCache.get
    have hmem1 : AmsCache.getFromMemory now'
        (AmsCache.set now mem st key v 0 persist).1 key =
        (none, eraseKey key (AmsCache.set now mem st key v 0 persist).1) := by
      unfold AmsCache.getFromMemory
      have : lookupKey key (AmsCache.set now mem st key v 0 persist).1 =
          some ⟨v, now, 0⟩ := by
        simp [AmsCache.set, AmsCache.setInMemory]
        exact lookupKey_setKey_self key _ mem
      rw [this]
      simp [AmsCache.isValid]
    rw [hmem1]
    cases hs : AmsCache.getFromStorage now' st key with
    | mk r2 st' =>
      cases r2 with
      | some w => rw [hs] at h; simp at h
      | none => simp

/-- Witness for the amended C7 at a concrete input: clean store, `set("k",
77, 0, true)` leaves the durable tier empty and the immediate `get`
returns absent. -/
theorem set_ttl_zero_never_served_witness :
    (AmsCache.set (α := Int) 3 [] [] "k" 77 0 true).2 = []
    ∧ lookupKey "k" (AmsCache.set (α := Int) 3 [] [] "k" 77 0 true).1 = some ⟨77, 3, 0⟩
    ∧ AmsCache.isValid 3 (some (⟨77, 3, 0⟩ : AmsCache.CacheEntry Int)) = false
    ∧ (AmsCache.getFromStorage (α := Int) 3 [] "k").1 = none
    ∧ (AmsCache.get (α := Int) 3
        (AmsCache.set (α := Int) 3 [] [] "k" 77 0 true).1
        (AmsCache.set (α := Int) 3 [] [] "k" 77 0 true).2 "k").1 = none :=
  ⟨(set_ttl_zero_never_served 3 3 "k" 77 [] [] true).1,
   (set_ttl_zero_never_served 3 3 "k" 77 [] [] true).2.1,
   (set_ttl_zero_never_served 3 3 "k" 77 [] [] true).2.2.1,
   rfl,
   (set_ttl_zero_never_served 3 3 "k" 77 [] [] true).2.2.2 rfl⟩

/-- Shared step lemma: a caller of `deduplicatedFetch` that misses the
cache and finds no in-flight operation for the key invokes the fetcher,
registers operation `s0.fetchCount`, and bumps the fetch counter. -/
theorem AmsCache.deduplicatedFetch_starts {α : Type} (t : Int) (key : String)
    (s0 : AmsCache.DedupState α)
    (hmiss : (AmsCache.get t s0.mem s0.st key).1 = none)
    (hnofl : lookupKey key s0.inFlightRequests = none) :
    AmsCache.deduplicatedFetch t key s0 =
      (⟨(AmsCache.get t s0.mem s0.st key).2.1, (AmsCache.get t s0.mem s0.st key).2.2,
        setKey key s0.fetchCount s0.inFlightRequests, s0.fetchCount + 1⟩,
       .joined s0.fetchCount) := by
  unfold AmsCache.deduplicatedFetch
  cases hg : AmsCache.get t s0.mem s0.st key with
  | mk r rest =>
    cases rest with
    | mk mem2 st2 =>
      cases r with
      | some v => rw [hg] at hmiss; simp at hmiss
      | none => rw [hnofl]

/-- C1: when the cache has no valid entry for `key` and no operation for
`key` is in flight, a first caller of `deduplicatedFetch` invokes the
fetcher exactly once (`fetchCount` rises by exactly 1, and hence exactly
one `setInFlight` registration and exactly one `finally` removal handler
exist for the operation); every further caller that starts before the
operation settles joins that same operation (observing its single outcome)
and triggers no further fetch; and when the operation settles — with
success or failure — the in-flight entry for `key` is gone. -/
theorem dedup_coalescing {α : Type} (key : String) (ttl : Int) (persist : Bool)
    (t tSettle : Int) (ts : List Int) (outcome : Option α)
    (s0 : AmsCache.DedupState α)
    (hmiss : (AmsCache.get t s0.mem s0.st key).1 = none)
    (hnofl : lookupKey key s0.inFlightRequests = none) :
    (AmsCache.deduplicatedFetch t key s0).2 = .joined s0.fetchCount
    ∧ (AmsCache.deduplicatedFetch t key s0).1.fetchCount = s0.fetchCount + 1
    ∧ (AmsCache.runCallers key ts (AmsCache.deduplicatedFetch t key s0).1).2 =
        ts.map (fun _ => .joined s0.fetchCount)
    ∧ (AmsCache.runCallers key ts (AmsCache.deduplicatedFetch t key s0).1).1.fetchCount =
        s0.fetchCount + 1
    ∧ lookupKey key
        (AmsCache.settle tSettle key ttl persist outcome
          (AmsCache.runCallers key ts
            (AmsCache.deduplicatedFetch t key s0).1).1).inFlightRequests =
        none := by
  obtain ⟨hm1, hs1⟩ := AmsCache.get_none_lookup hmiss
  rw [AmsCache.deduplicatedFetch_starts t key s0 hmiss hnofl]
  have hall := AmsCache.runCallers_all_join (α := α) key ts
    ⟨(AmsCache.get t s0.mem s0.st key).2.1, (AmsCache.get t s0.mem s0.st key).2.2,
      setKey key s0.fetchCount s0.inFlightRequests, s0.fetchCount + 1⟩
    s0.fetchCount hm1 hs1
    (lookupKey_setKey_self key s0.fetchCount s0.inFlightRequests)
  rw [hall]
  refine ⟨rfl, rfl, rfl, rfl, ?_⟩
  unfold AmsCache.settle
  exact lookupKey_eraseKey_self key _

/-- Witness for C1 at a concrete run: empty caches, no in-flight entry, a
first caller at t=0 and two more callers at t=1 and t=2, settling in
failure at t=3. -/
theorem dedup_coalescing_witness :
    (AmsCache.get (α := Int) 0 [] [] "k").1 = none
    ∧ lookupKey "k" (AmsCache.DedupState.mk (α := Int) [] [] [] 0).inFlightRequests = none
    ∧ (AmsCache.deduplicatedFetch (α := Int) 0 "k" ⟨[], [], [], 0⟩).2 = .joined 0
    ∧ (AmsCache.deduplicatedFetch (α := Int) 0 "k" ⟨[], [], [], 0⟩).1.fetchCount = 1
    ∧ (AmsCache.runCallers "k" [1, 2]
        (AmsCache.deduplicatedFetch (α := Int) 0 "k" ⟨[], [], [], 0⟩).1).2 =
      [.joined 0, .joined 0]
    ∧ (AmsCache.runCallers "k" [1, 2]
        (AmsCache.deduplicatedFetch (α := Int) 0 "k" ⟨[], [], [], 0⟩).1).1.fetchCount = 1
    ∧ lookupKey "k"
        (AmsCache.settle 3 "k" 300000 true none
          (AmsCache.runCallers "k" [1, 2]
            (AmsCache.deduplicatedFetch (α := Int) 0 "k"
              ⟨[], [], [], 0⟩).1).1).inFlightRequests = none := by
  have h := dedup_coalescing (α := Int) "k" 300000 true 0 3 [1, 2] none
    ⟨[], [], [], 0⟩ rfl rfl
  exact ⟨rfl, rfl, h.1, h.2.1, h.2.2.1, h.2.2.2.1, h.2.2.2.2⟩

/-- C6: when the operation started by `deduplicatedFetch` fails, nothing is
written to either cache tier for the key (the settled state's tiers are the
pre-settlement ones, in which the key is absent), a read immediately after
the failure misses, and a subsequent caller starts a fresh fetch: it does
not join any in-flight operation and invokes the fetcher anew
(`fetchCount` rises again). -/
theorem dedup_failure_not_cached {α : Type} (key : String) (ttl : Int)
    (persist : Bool) (t tSettle tNext : Int) (s0 : AmsCache.DedupState α)
    (hmiss : (AmsCache.get t s0.mem s0.st key).1 = none)
    (hnofl : lookupKey key s0.inFlightRequests = none) :
    (AmsCache.settle tSettle key ttl persist none
        (AmsCache.deduplicatedFetch t key s0).1).mem =
      (AmsCache.deduplicatedFetch t key s0).1.mem
    ∧ (AmsCache.settle tSettle key ttl persist none
        (AmsCache.deduplicatedFetch t key s0).1).st =
      (AmsCache.deduplicatedFetch t key s0).1.st
    ∧ lookupKey key
        (AmsCache.settle tSettle key ttl persist none
          (AmsCache.deduplicatedFetch t key s0).1).mem = none
    ∧ lookupKey ( AmsCache.STORAGE_PREFIX ++ key)
        (AmsCache.settle tSettle key ttl persist none
          (AmsCache.deduplicatedFetch t key s0).1).st = none
    ∧ (AmsCache.get tNext
        (AmsCache.settle tSettle key ttl persist none
          (AmsCache.deduplicatedFetch t key s0).1).mem
        (AmsCache.settle tSettle key ttl persist none
          (AmsCache.deduplicatedFetch t key s0).1).st key).1 = none
    ∧ (AmsCache.deduplicatedFetch tNext key
        (AmsCache.settle tSettle key ttl persist none
          (AmsCache.deduplicatedFetch t key s0).1)).2 =
      .joined (AmsCache.settle tSettle key ttl persist none
        (AmsCache.deduplicatedFetch t key s0).1).fetchCount
    ∧ (AmsCache.deduplicatedFetch tNext key
        (AmsCache.settle tSettle key ttl persist none
          (AmsCache.deduplicatedFetch t key s0).1)).1.fetchCount =
      (AmsCache.settle tSettle key ttl persist none
        (AmsCache.deduplicatedFetch t key s0).1).fetchCount + 1 := by
  obtain ⟨hm1, hs1⟩ := AmsCache.get_none_lookup hmiss
  rw [AmsCache.deduplicatedFetch_starts t key s0 hmiss hnofl]
  unfold AmsCache.settle
  simp only []
  have hsettled : lookupKey key
      (eraseKey key (setKey key s0.fetchCount s0.inFlightRequests)) = none :=
    lookupKey_eraseKey_self key _
  have hnext := AmsCache.deduplicatedFetch_starts tNext key
    (⟨(AmsCache.get t s0.mem s0.st key).2.1, (AmsCache.get t s0.mem s0.st key).2.2,
      eraseKey key (setKey key s0.fetchCount s0.inFlightRequests), s0.fetchCount + 1⟩)
    (by rw [AmsCache.get_of_lookup_none tNext hm1 hs1]) hsettled
  rw [hnext]
  refine ⟨trivial, trivial, hm1, hs1, ?_, rfl, rfl⟩
  rw [AmsCache.get_of_lookup_none tNext hm1 hs1]

/-- Witness for C6 at a concrete run: empty caches, one caller at t=0, the
operation fails at t=1; nothing is cached, the read at t=2 misses, and the
next caller at t=2 starts fetch number 2. -/
theorem dedup_failure_not_cached_witness :
    (AmsCache.get (α := Int) 0 [] [] "k").1 = none
    ∧ lookupKey "k" (AmsCache.DedupState.mk (α := Int) [] [] [] 0).inFlightRequests = none
    ∧ lookupKey "k"
        (AmsCache.settle 1 "k" 300000 true none
          (AmsCache.deduplicatedFetch (α := Int) 0 "k" ⟨[], [], [], 0⟩).1).mem = none
    ∧ lookupKey ( AmsCache.STORAGE_PREFIX ++ "k")
        (AmsCache.settle 1 "k" 300000 true none
          (AmsCache.deduplicatedFetch (α := Int) 0 "k" ⟨[], [], [], 0⟩).1).st = none
    ∧ (AmsCache.get (α := Int) 2
        (AmsCache.settle 1 "k" 300000 true none
          (AmsCache.deduplicatedFetch (α := Int) 0 "k" ⟨[], [], [], 0⟩).1).mem
        (AmsCache.settle 1 "k" 300000 true none
          (AmsCache.deduplicatedFetch (α := Int) 0 "k" ⟨[], [], [], 0⟩).1).st "k").1 = none
    ∧ (AmsCache.deduplicatedFetch (α := Int) 2 "k"
        (AmsCache.settle 1 "k" 300000 true none
          (AmsCache.deduplicatedFetch (α := Int) 0 "k"
            ⟨[], [], [], 0⟩).1)).1.fetchCount = 2 := by
  have h := dedup_failure_not_cached (α := Int) "k" 300000 true 0 1 2
    ⟨[], [], [], 0⟩ rfl rfl
  exact ⟨rfl, rfl, h.2.2.1, h.2.2.2.1, h.2.2.2.2.1, h.2.2.2.2.2.2⟩

/-- Folded removal of a list of keys: the lookup of `k` afterwards is
`none` when `k` is among the removed keys and is unchanged otherwise. -/
theorem lookupKey_foldl_eraseKey {β : Type} (ks : List String)
    (st : List (String × β)) (k : String) :
    lookupKey k (ks.foldl (fun s k' => eraseKey k' s) st) =
      if k ∈ ks then none else lookupKey k st := by
  induction ks generalizing st with
  | nil => simp
  | cons k0 rest ih =>
    simp only [List.foldl_cons]
    rw [ih]
    by_cases hk : k = k0
    · subst hk
      by_cases hr : k ∈ rest
      · simp [hr]
      · simp [hr, lookupKey_eraseKey_self]
    · by_cases hr : k ∈ rest
      · simp [hr, hk]
      · have hne : k0 ≠ k := fun h => hk h.symm
        simp [hr, hk, lookupKey_eraseKey_ne hne st]

/-- Net effect of `clearAll` on the durable tier: exactly the bindings
whose storage key starts with `STORAGE_PREFIX` are gone, every other
binding is untouched. -/
theorem AmsCache.clearAll_lookup {α : Type} (mem : AmsCache.Mem α)
    (st : AmsCache.Store α) (k : String) :
    lookupKey k (AmsCache.clearAll mem st).2 =
      if strStartsWith k AmsCache.STORAGE_PREFIX then none else lookupKey k st := by
  unfold AmsCache.clearAll
  simp only []
  rw [lookupKey_foldl_eraseKey]
  by_cases hp : strStartsWith k AmsCache.STORAGE_PREFIX = true
  · simp only [hp, if_true]
    by_cases hmem : k ∈ st.map Prod.fst
    · have hin : k ∈ (st.map Prod.fst).filter
          (fun k' => strStartsWith k' AmsCache.STORAGE_PREFIX) := by
        rw [List.mem_filter]
        exact ⟨hmem, hp⟩
      simp [hin]
    · have hnotin : ¬ k ∈ (st.map Prod.fst).filter
          (fun k' => strStartsWith k' AmsCache.STORAGE_PREFIX) :=
        fun hin => hmem (List.mem_filter.mp hin).1
      simp [hnotin, lookupKey_eq_none_of_not_mem hmem]
  · have hnotin : ¬ k ∈ (st.map Prod.fst).filter
        (fun k' => strStartsWith k' AmsCache.STORAGE_PREFIX) :=
      fun hin => hp (List.mem_filter.mp hin).2
    simp [hp, hnotin]

/-- C9: `clearAll` empties the fast tier and removes from durable storage
exactly the entries whose storage key starts with the cache namespace
`STORAGE_PREFIX` (`ams_cache_`), leaving the binding of every other key
unchanged; in particular the session-token key (`erpToken`) and the
session-settings key (`erpApiSettings`) do not start with the namespace and
are never disturbed. -/
theorem clearAll_frame {α : Type} (mem : AmsCache.Mem α) (st : AmsCache.Store α)
    (k : String) :
    (AmsCache.clearAll mem st).1 = []
    ∧ lookupKey k (AmsCache.clearAll mem st).2 =
        (if strStartsWith k AmsCache.STORAGE_PREFIX then none else lookupKey k st)
    ∧ strStartsWith TOKEN_KEY AmsCache.STORAGE_PREFIX = false
    ∧ strStartsWith SETTINGS_KEY AmsCache.STORAGE_PREFIX = false
    ∧ lookupKey TOKEN_KEY (AmsCache.clearAll mem st).2 = lookupKey TOKEN_KEY st
    ∧ lookupKey SETTINGS_KEY (AmsCache.clearAll mem st).2 = lookupKey SETTINGS_KEY st := by
  have htok : strStartsWith TOKEN_KEY AmsCache.STORAGE_PREFIX = false := by decide
  have hset : strStartsWith SETTINGS_KEY AmsCache.STORAGE_PREFIX = false := by decide
  refine ⟨rfl, AmsCache.clearAll_lookup mem st k, htok, hset, ?_, ?_⟩
  · rw [AmsCache.clearAll_lookup mem st TOKEN_KEY, htok]
    simp
  · rw [AmsCache.clearAll_lookup mem st SETTINGS_KEY, hset]
    simp
